import Mathlib

/-!
# A shallow embedding of the glog rotating-logger core

This file embeds the rotation core of the `glog` package (`logger.go`,
`options.go`) as executable Lean definitions and proves properties of the
rotation policy, the dual-slot writer swap, deferred file initialization,
file naming, and timezone configuration.

Modelling conventions:
* Go `int`/`int64` fields are `Int`; bit masks live in `Nat`
  (all mask values are small non-negative constants).
* `time.Time` instants are modelled as nanoseconds (`Int`) on the timeline
  of the logger's configured zone; `time.Time`'s zero value is instant `0`
  and the model is used on non-negative instants.  `t.After(u)` is `u < t`.
* `time.Date(Y, M, D, 0, 0, 0, 0, loc)` (start of the current day) is
  `dayAnchor`, truncation of the instant to a whole day; likewise
  `hourAnchor` for the start of the current hour.
* The `int64` overflow of `l.timeInterval * DayToNano` inside
  `time.Duration(...)` is modelled by `wrap64`.
* Side effects on the file system (open, write, directory scan) are inputs
  of the step functions: an emit receives the outcome the OS would give.
* `github.com/pkg/errors`: `errors.Wrap(err, msg)` returns `nil` when
  `err` is `nil`, and an annotated non-nil error otherwise.  This is
  `errorsWrap` below and is load-bearing for the both-slots-occupied path.
* The `float32` UTC offset is idealized as `Rat`; Go's `int(f)` conversion
  truncates toward zero, which is `ratTrunc`.
-/

namespace GlogSpec

/-- Output-routing mask bits (`logger.go` lines 33-36). -/
def TOCONSOLE : Nat := 1

/-- File-output bit of the per-level routing mask. -/
def TOFILE : Nat := 2

/-- Source-file-annotation bit of the routing mask. -/
def FILEINFO : Nat := 4

/-- Source-line-annotation bit of the routing mask. -/
def LINEINFO : Nat := 8

/-- Nanoseconds per second (`SecondToNano`). -/
def SecondToNano : Int := 1000000000

/-- Seconds per hour (`HourToSecond`). -/
def HourToSecond : Int := 3600

/-- Nanoseconds per hour (`HourToNano`). -/
def HourToNano : Int := HourToSecond * SecondToNano

/-- Nanoseconds per day (`DayToNano`). -/
def DayToNano : Int := 24 * HourToNano

/-- Severity levels (`LogLevel`, iota order Debug < Info < Warn < Error). -/
inductive LogLevel where
  | DebugLevel
  | InfoLevel
  | WarnLevel
  | ErrorLevel
deriving DecidableEq

/-- The numeric value of a level (Go `LogLevel` is an `int` via iota). -/
def LogLevel.toNat : LogLevel → Nat
  | .DebugLevel => 0
  | .InfoLevel => 1
  | .WarnLevel => 2
  | .ErrorLevel => 3

/-- Rotation trigger kinds (`ShiftType`). -/
inductive ShiftType where
  | ShiftNone
  | ShiftSecond
  | ShiftHour
  | ShiftDay
  | ShiftSize
  | ShiftSecondAndSize
  | ShiftHourAndSize
  | ShiftDayAndSize
deriving DecidableEq

/-- A `*time.Location` value: either `time.FixedZone("", seconds)`, a named
IANA zone from `time.LoadLocation`, or `time.UTC`. -/
inductive GoLocation where
  | utc
  | fixedZone (offsetSec : Int)
  | iana (zoneName : String)
deriving DecidableEq

/-- The `Logger` struct (`logger.go` lines 129-181).  The two
`files`/`writers` slot pairs are `file0`/`file1` (`none` = Go `nil`,
`some p` = an open handle on path `p`; the parallel `bufio.Writer` exists
exactly when the file does).  `activeIdx` records which slot `l.writer`
points at. -/
structure Logger where
  folder : String
  loggerName : String
  level : LogLevel
  loc : GoLocation
  utc : Rat
  outputs : LogLevel → Nat
  outputInited : Bool
  activeIdx : Nat
  bufferSize : Nat
  file0 : Option String
  file1 : Option String
  shiftType : ShiftType
  timeInterval : Int
  date : Int
  nShift : Int
  sizeLimit : Int
  cumSize : Int

/-- Two's-complement wrap of a mathematical integer into `int64`, used where
the Go source multiplies `int64` quantities that can overflow. -/
def wrap64 (x : Int) : Int := (x + 2 ^ 63) % 2 ^ 64 - 2 ^ 63

/-- `time.Date(now.Year(), now.Month(), now.Day(), 0, 0, 0, 0, loc)`:
the start of the day containing `now` on the zone-local timeline. -/
def dayAnchor (now : Int) : Int := now / DayToNano * DayToNano

/-- `time.Date(..., now.Hour(), 0, 0, 0, loc)`: the start of the hour. -/
def hourAnchor (now : Int) : Int := now / HourToNano * HourToNano

/-- `newLogger` (`logger.go` lines 183-207): the per-level default masks,
no folder, UTC display zone, day-based trigger, everything else zeroed,
and file output not yet initialized. -/
def newLogger (loggerName : String) (level : LogLevel) : Logger where
  folder := ""
  loggerName := loggerName
  level := level
  loc := GoLocation.utc
  utc := 0
  outputs := fun lv =>
    match lv with
    | .DebugLevel => TOCONSOLE ||| LINEINFO
    | .InfoLevel => TOCONSOLE ||| LINEINFO
    | .WarnLevel => TOCONSOLE ||| FILEINFO ||| LINEINFO
    | .ErrorLevel => TOCONSOLE ||| FILEINFO ||| LINEINFO
  outputInited := false
  activeIdx := 0
  bufferSize := 4096
  file0 := none
  file1 := none
  shiftType := ShiftType.ShiftDay
  timeInterval := 0
  date := 0
  nShift := 0
  sizeLimit := 0
  cumSize := 0

/-- `SetSizeLimit` (`logger.go` lines 259-261). -/
def SetSizeLimit (size : Int) (l : Logger) : Logger := { l with sizeLimit := size }

/-- `setDaysInterval` (`logger.go` lines 264-276), verbatim branch
structure: `days <= 0` stores the sentinel `-1` and returns without
touching the deadline; otherwise `105850 < days` keeps `days` and the
remaining branch stores `105850`; then the deadline becomes the start of
the current day plus the stored interval in days. -/
def setDaysInterval (now : Int) (days : Int) (l : Logger) : Logger :=
  if days ≤ 0 then
    { l with timeInterval := -1 }
  else
    let l' :=
      if 105850 < days then { l with timeInterval := days }
      else { l with timeInterval := 105850 }
    { l' with date := dayAnchor now + wrap64 (l'.timeInterval * DayToNano) }

/-- `setHourInterval` (`logger.go` lines 279-291), same shape with the
constant `2540400` and the start of the current hour. -/
def setHourInterval (now : Int) (hour : Int) (l : Logger) : Logger :=
  if hour ≤ 0 then
    { l with timeInterval := -1 }
  else
    let l' :=
      if 2540400 < hour then { l with timeInterval := hour }
      else { l with timeInterval := 2540400 }
    { l' with date := hourAnchor now + wrap64 (l'.timeInterval * HourToNano) }

/-- `setSencodInterval` (`logger.go` lines 293-301): seconds are stored
unclamped and the deadline is `now` plus the interval. -/
def setSencodInterval (now : Int) (second : Int) (l : Logger) : Logger :=
  if second ≤ 0 then
    { l with timeInterval := -1 }
  else
    let l' := { l with timeInterval := second }
    { l' with date := now + wrap64 (l'.timeInterval * SecondToNano) }

/-- `SetShiftCondition` (`logger.go` lines 230-256): reset the cumulative
size, store the trigger kind, then dispatch to the interval/size setters. -/
def SetShiftCondition (now : Int) (shiftType : ShiftType) (times : Int)
    (size : Int) (l : Logger) : Logger :=
  let l' := { l with cumSize := 0, shiftType := shiftType }
  match shiftType with
  | .ShiftSecond => setSencodInterval now times l'
  | .ShiftHour => setHourInterval now times l'
  | .ShiftDay => setDaysInterval now times l'
  | .ShiftSize => SetSizeLimit size l'
  | .ShiftSecondAndSize => SetSizeLimit size (setSencodInterval now times l')
  | .ShiftHourAndSize => SetSizeLimit size (setHourInterval now times l')
  | .ShiftDayAndSize => SetSizeLimit size (setDaysInterval now times l')
  | .ShiftNone => l'

/-- `whetherNeedUpdateOutputs` (`logger.go` lines 568-598).
Returns `0` (no rotation), `1` (size limit reached: `cumSize >= sizeLimit`)
or `2` (deadline passed: `getTime().After(date)`).  The stored
`timeInterval` is never consulted here. -/
def whetherNeedUpdateOutputs (now : Int) (l : Logger) : Nat :=
  if l.shiftType = ShiftType.ShiftNone then 0
  else if l.shiftType = ShiftType.ShiftSize then
    if l.sizeLimit ≤ l.cumSize then 1 else 0
  else
    if l.date < now then 2
    else
      match l.shiftType with
      | .ShiftDayAndSize | .ShiftHourAndSize | .ShiftSecondAndSize =>
        if l.sizeLimit ≤ l.cumSize then 1 else 0
      | _ => 0

/-- `errors.Wrap` from `github.com/pkg/errors`: returns Go `nil` when the
wrapped error is `nil`, otherwise annotates it.  Errors are modelled as
`Option String` (`none` = `nil`). -/
def errorsWrap (err : Option String) (msg : String) : Option String :=
  match err with
  | none => none
  | some e => some (msg ++ ": " ++ e)

/-- `path.Join(folder, name)` for the shapes the logger produces: joining
with an empty folder yields the bare name. -/
def pathJoin (folder name : String) : String :=
  if folder = "" then name else folder ++ "/" ++ name

/-- Write slot `idx` of the `files` pair (`l.files[idx] = v`). -/
def setSlot (idx : Nat) (v : Option String) (l : Logger) : Logger :=
  if idx = 0 then { l with file0 := v } else { l with file1 := v }

/-- Read slot `idx` of the `files` pair (`l.files[idx]`). -/
def getSlot (idx : Nat) (l : Logger) : Option String :=
  if idx = 0 then l.file0 else l.file1

/-- `getFilePath` (`logger.go` lines 454-484).  `ts` is the formatted
timestamp `getFileTime()` would produce at this instant (time formatting is
factored out; see `getFileTime` on civil times below).  For size-involving
kinds, `nShift = 0` yields the bare name, otherwise the `-{n}` suffix is
appended and `nShift` is incremented afterwards. -/
def getFilePath (ts : String) (l : Logger) : String × Logger :=
  match l.shiftType with
  | .ShiftDayAndSize | .ShiftHourAndSize | .ShiftSecondAndSize | .ShiftSize =>
    if l.nShift = 0 then
      (pathJoin l.folder (l.loggerName ++ "-" ++ ts ++ ".log"), l)
    else
      (pathJoin l.folder (l.loggerName ++ "-" ++ ts ++ "-" ++ toString l.nShift ++ ".log"),
        { l with nShift := l.nShift + 1 })
  | _ => (pathJoin l.folder (l.loggerName ++ "-" ++ ts ++ ".log"), l)

/-- The collision-scan loop of `getInitPath` (`logger.go` lines 510-518):
starting from the current `nShift`, advance while `{name}-{ts}-{n+1}.log`
is an existing file name.  `fuel` bounds the recursion; any fuel larger
than the number of existing names is enough, since each step consumes a
distinct member of `names`. -/
def findShift (names : List String) (loggerName ts : String) :
    Int → Nat → Int
  | nShift, 0 => nShift
  | nShift, fuel + 1 =>
    if (loggerName ++ "-" ++ ts ++ "-" ++ toString (nShift + 1) ++ ".log") ∈ names then
      findShift names loggerName ts (nShift + 1) fuel
    else nShift

/-- `getInitPath` (`logger.go` lines 486-549).  `names` is the folder
listing (`ioutil.ReadDir`), `statSize` the result of `os.Stat` per path
(`none` = the file does not exist). -/
def getInitPath (names : List String) (statSize : String → Option Int)
    (now : Int) (ts : String) (l : Logger) : String × Logger :=
  let fileName := l.loggerName ++ "-" ++ ts ++ ".log"
  if fileName ∉ names then
    (pathJoin l.folder fileName, { l with nShift := 1 })
  else
    let l1 := { l with
      nShift := findShift names l.loggerName ts l.nShift (names.length + 1) }
    let fileName1 :=
      if l1.nShift = (0 : Int) then l1.loggerName ++ "-" ++ ts ++ ".log"
      else l1.loggerName ++ "-" ++ ts ++ "-" ++ toString l1.nShift ++ ".log"
    let filePath1 := pathJoin l1.folder fileName1
    match statSize filePath1 with
    | some size =>
      let l2 := { l1 with cumSize := size }
      let status := whetherNeedUpdateOutputs now l2
      if status ≠ 0 then
        let l3 := { l2 with cumSize := 0, nShift := l2.nShift + 1 }
        let fileName2 := l3.loggerName ++ "-" ++ ts ++ "-" ++ toString l3.nShift ++ ".log"
        (pathJoin l3.folder fileName2, { l3 with nShift := l3.nShift + 1 })
      else
        (filePath1, { l2 with nShift := l2.nShift + 1 })
    | none =>
      (filePath1, { l1 with nShift := l1.nShift + 1 })

/-- `initOutput` (`logger.go` lines 426-452): error without a folder,
otherwise choose the initial path, open it into slot 0, point the writer at
slot 0 and mark the output initialized.  `openErr` is the outcome
`os.OpenFile` would give for the chosen path. -/
def initOutput (names : List String) (statSize : String → Option Int)
    (openErr : Option String) (now : Int) (ts : String) (l : Logger) :
    Logger × Option String :=
  if l.folder = "" then (l, some "未定義輸出資料夾")
  else
    let pl := getInitPath names statSize now ts l
    match openErr with
    | some e =>
      ({ pl.2 with file0 := none },
        errorsWrap (some e) ("開啟輸出檔時發生錯誤, path: " ++ pl.1))
    | none =>
      ({ pl.2 with file0 := some pl.1, activeIdx := 0, outputInited := true }, none)

/-- `updateOutput` (`logger.go` lines 601-640).  The cumulative size is
zeroed first; a time-triggered rotation (`status = 2`) additionally resets
`nShift` and re-runs `SetShiftCondition` with the stored parameters.  The
swap targets the first empty slot; with both slots occupied the function
returns `errors.Wrap(err, ...)` where `err` is still Go `nil`.  On a
successful open the new slot becomes active and the other slot is flushed,
closed and cleared. -/
def updateOutput (now : Int) (ts : String) (openErr : Option String)
    (status : Nat) (l : Logger) : Logger × Option String :=
  let l1 := { l with cumSize := 0 }
  let l2 :=
    if status = 2 then
      SetShiftCondition now l1.shiftType l1.timeInterval l1.sizeLimit
        { l1 with nShift := 0 }
    else l1
  if l2.file0 = none then
    updateOutputAt ts openErr 0 l2
  else if l2.file1 = none then
    updateOutputAt ts openErr 1 l2
  else
    (l2, errorsWrap none "切換輸出檔時發生錯誤")
where
  /-- The tail of `updateOutput` once the free slot `idx` is chosen
  (`logger.go` lines 621-639). -/
  updateOutputAt (ts : String) (openErr : Option String)
      (idx : Nat) (l : Logger) : Logger × Option String :=
    let pl := getFilePath ts l
    match openErr with
    | some e =>
      (setSlot idx none pl.2,
        errorsWrap (some e) ("開啟輸出檔時發生錯誤, path: " ++ pl.1))
    | none =>
      let lOpened := { setSlot idx (some pl.1) pl.2 with activeIdx := idx }
      (setSlot (1 - idx) none lOpened, none)

/-- The file-output branch of `Logout` (`logger.go` lines 363-393): when
already initialized, consult `whetherNeedUpdateOutputs` and rotate on a
non-zero status (propagating a wrapped error); otherwise initialize; then
append the formatted record (its byte length is `recLen`, the value
`WriteString` returns on success) and add it to the cumulative size. -/
def logoutFile (names : List String) (statSize : String → Option Int)
    (openErr writeErr : Option String) (now : Int) (ts : String)
    (recLen : Int) (l : Logger) : Logger × Option String :=
  let pre : Logger × Option String :=
    if l.outputInited then
      let status := whetherNeedUpdateOutputs now l
      if status ≠ 0 then
        let ue := updateOutput now ts openErr status l
        (ue.1, errorsWrap ue.2 "更新輸出位置時發生錯誤")
      else (l, none)
    else
      let ie := initOutput names statSize openErr now ts l
      (ie.1, errorsWrap ie.2 "Failed to initialize output.")
  match pre with
  | (l1, some e) => (l1, some e)
  | (l1, none) =>
    match writeErr with
    | some e => (l1, errorsWrap (some e) "數據寫出時發生錯誤")
    | none => ({ l1 with cumSize := l1.cumSize + recLen }, none)

/-- `Logout` (`logger.go` lines 319-395) restricted to its state effects:
records below the logger's threshold return immediately; caller resolution
and console printing touch no logger state; the file branch runs exactly
when the level's mask has the `TOFILE` bit. -/
def Logout (names : List String) (statSize : String → Option Int)
    (openErr writeErr : Option String) (now : Int) (ts : String)
    (recLen : Int) (level : LogLevel) (l : Logger) : Logger × Option String :=
  if level.toNat < l.level.toNat then (l, none)
  else if l.outputs level &&& TOFILE = TOFILE then
    logoutFile names statSize openErr writeErr now ts recLen l
  else (l, none)

/-- Go's `int(f)` conversion truncates toward zero; on the `Rat`
idealization of `float32` this is t-division of numerator by denominator. -/
def ratTrunc (q : Rat) : Int := Int.tdiv q.num (q.den : Int)

/-- `setUtc` (`logger.go` lines 654-662): store the offset; offset `-4`
loads the named IANA zone `America/Nipigon`, every other offset installs
`time.FixedZone("", int(utc*60*60))`. -/
def setUtc (utc : Rat) (l : Logger) : Logger :=
  let l1 := { l with utc := utc }
  if l1.utc = -4 then { l1 with loc := GoLocation.iana "America/Nipigon" }
  else { l1 with loc := GoLocation.fixedZone (ratTrunc (l1.utc * 60 * 60)) }

/-- `(o *utcOption) SetOption` (`options.go` lines 127-135): clamp the
configured offset into `[-12, 14]`, then apply `setUtc`. -/
def utcOptionSet (utc : Rat) (l : Logger) : Logger :=
  let u := if utc < -12 then -12 else if utc > 14 then 14 else utc
  setUtc u l

/-- A zone-local wall-clock reading at the precision the file-name format
`FILENAMETIME = "2006-01-02-15-04"` can show (year, month, day, hour,
minute). -/
structure Civil where
  year : Nat
  month : Nat
  day : Nat
  hour : Nat
  minute : Nat
deriving DecidableEq

/-- Zero-pad to two digits, as Go's `"01"`/`"02"`/`"15"`/`"04"` format
verbs do for the calendar fields in range. -/
def pad2 (n : Nat) : String :=
  if n < 10 then "0" ++ toString n else toString n

/-- Zero-pad to four digits, as Go's `"2006"` year verb does. -/
def pad4 (n : Nat) : String :=
  if n < 10 then "000" ++ toString n
  else if n < 100 then "00" ++ toString n
  else if n < 1000 then "0" ++ toString n
  else toString n

/-- `t.Format(FILENAMETIME)` with `FILENAMETIME = "2006-01-02-15-04"`. -/
def formatFileNameTime (c : Civil) : String :=
  pad4 c.year ++ "-" ++ pad2 c.month ++ "-" ++ pad2 c.day ++ "-" ++
    pad2 c.hour ++ "-" ++ pad2 c.minute

/-- `getFileTime` (`logger.go` lines 551-565): day kinds truncate the
current time to the start of the day before formatting, hour kinds to the
start of the hour, and every other kind formats the current time at
minute precision. -/
def getFileTime (shiftType : ShiftType) (now : Civil) : String :=
  match shiftType with
  | .ShiftDay | .ShiftDayAndSize =>
    formatFileNameTime { now with hour := 0, minute := 0 }
  | .ShiftHour | .ShiftHourAndSize =>
    formatFileNameTime { now with minute := 0 }
  | _ => formatFileNameTime now

/-- The primitive steps of `Logout`'s file branch, labelled by what state
they touch (`logger.go` lines 363-393). -/
inductive EmitAction where
  | rotationCheck
  | rotationMutate
  | initMutate
  | lockAcquire
  | recordWrite
  | cumSizeAdd
  | lockRelease
deriving DecidableEq

/-- The order in which `Logout`'s file branch performs its steps: when the
output is initialized, `whetherNeedUpdateOutputs` (`rotationCheck`, reads
`cumSize`/`date`/`sizeLimit`) and, on a non-zero status, `updateOutput`
(`rotationMutate`, writes `cumSize`, the slots, the deadline and
`nShift`); otherwise `initOutput` (`initMutate`, writes the slots).  Only
then is `l.mu.Lock()` taken, the record written, `cumSize` incremented and
the mutex released by the deferred unlock. -/
def logoutFileTrace (inited needRotate : Bool) : List EmitAction :=
  (if inited then
    [EmitAction.rotationCheck] ++
      (if needRotate then [EmitAction.rotationMutate] else [])
  else [EmitAction.initMutate]) ++
    [EmitAction.lockAcquire, EmitAction.recordWrite,
      EmitAction.cumSizeAdd, EmitAction.lockRelease]

/-- Does a step mutate state participating in the rotation decision
(cumulative size, slots, deadline)? -/
def mutatesRotationState : EmitAction → Bool
  | .rotationMutate => true
  | .initMutate => true
  | .cumSizeAdd => true
  | _ => false

/-- Walk a trace with the current lock depth and check that every step
mutating rotation-relevant state runs with the lock held. -/
def mutationsUnderLock : List EmitAction → Nat → Bool
  | [], _ => true
  | a :: rest, depth =>
    (if mutatesRotationState a then decide (0 < depth) else true) &&
      mutationsUnderLock rest
        (match a with
          | .lockAcquire => depth + 1
          | .lockRelease => depth - 1
          | _ => depth)

/-- The non-lock steps of a trace executed while the lock is held. -/
def stepsUnderLock : List EmitAction → Nat → List EmitAction
  | [], _ => []
  | a :: rest, depth =>
    let tail := stepsUnderLock rest
      (match a with
        | .lockAcquire => depth + 1
        | .lockRelease => depth - 1
        | _ => depth)
    match a with
    | .lockAcquire | .lockRelease => tail
    | _ => if 0 < depth then a :: tail else tail

/-- The non-lock steps of a trace executed with the lock free. -/
def stepsOutsideLock : List EmitAction → Nat → List EmitAction
  | [], _ => []
  | a :: rest, depth =>
    let tail := stepsOutsideLock rest
      (match a with
        | .lockAcquire => depth + 1
        | .lockRelease => depth - 1
        | _ => depth)
    match a with
    | .lockAcquire | .lockRelease => tail
    | _ => if 0 < depth then tail else a :: tail

/-- The dual-slot writer in its steady state: the active index points at
the one occupied slot and the other slot is free. -/
def steadySlots (l : Logger) : Prop :=
  (l.activeIdx = 0 ∧ l.file0.isSome ∧ l.file1 = none) ∨
  (l.activeIdx = 1 ∧ l.file1.isSome ∧ l.file0 = none)

/-- The per-emit inputs of one `Logout` call: the environment outcomes and
the record's level and formatted length. -/
structure EmitInput where
  names : List String
  statSize : String → Option Int
  openErr : Option String
  writeErr : Option String
  now : Int
  ts : String
  recLen : Int
  level : LogLevel

/-- One emit as a state transformer. -/
def emitStep (l : Logger) (e : EmitInput) : Logger :=
  (Logout e.names e.statSize e.openErr e.writeErr e.now e.ts e.recLen e.level l).1

/-- A freshly constructed logger used as a concrete base point. -/
def sampleLogger : Logger := newLogger "t" LogLevel.DebugLevel

/-- A size-triggered logger in its steady state: slot 0 active with an open
file, 80 of 100 permitted bytes accumulated. -/
def sizeSteady : Logger :=
  { sampleLogger with
    outputs := fun _ => TOCONSOLE ||| TOFILE
    outputInited := true
    folder := "logs"
    file0 := some "logs/t-2024-05-06-07-08.log"
    file1 := none
    activeIdx := 0
    shiftType := ShiftType.ShiftSize
    sizeLimit := 100
    cumSize := 80 }

/-- A rotation-due logger whose two writer slots are both occupied, the
state `updateOutput` treats as a broken invariant. -/
def bothBusy : Logger :=
  { sizeSteady with file1 := some "logs/t-2024-05-06-07-08-1.log", cumSize := 120 }

/-- The tail of `updateOutput` after the pre-swap state mutations: the
free-slot scan and the swap itself (`logger.go` lines 610-639).
`updateOutput` is definitionally this tail applied to the mutated state;
see `updateOutput_eq_tail`. -/
def updateOutputTail (ts : String) (openErr : Option String) (l : Logger) :
    Logger × Option String :=
  if l.file0 = none then updateOutput.updateOutputAt ts openErr 0 l
  else if l.file1 = none then updateOutput.updateOutputAt ts openErr 1 l
  else (l, errorsWrap none "切換輸出檔時發生錯誤")

/-- `SetShiftCondition` never touches slot 0. -/
theorem SetShiftCondition_file0 (now : Int) (st : ShiftType)
    (times size : Int) (l : Logger) :
    (SetShiftCondition now st times size l).file0 = l.file0 := by
  cases st <;>
    simp only [SetShiftCondition, SetSizeLimit, setDaysInterval,
      setHourInterval, setSencodInterval] <;>
    (try split_ifs) <;> simp_all

/-- `SetShiftCondition` never touches slot 1. -/
theorem SetShiftCondition_file1 (now : Int) (st : ShiftType)
    (times size : Int) (l : Logger) :
    (SetShiftCondition now st times size l).file1 = l.file1 := by
  cases st <;>
    simp only [SetShiftCondition, SetSizeLimit, setDaysInterval,
      setHourInterval, setSencodInterval] <;>
    (try split_ifs) <;> simp_all

/-- `SetShiftCondition` never touches the active index. -/
theorem SetShiftCondition_activeIdx (now : Int) (st : ShiftType)
    (times size : Int) (l : Logger) :
    (SetShiftCondition now st times size l).activeIdx = l.activeIdx := by
  cases st <;>
    simp only [SetShiftCondition, SetSizeLimit, setDaysInterval,
      setHourInterval, setSencodInterval] <;>
    (try split_ifs) <;> simp_all

/-- `SetShiftCondition` never touches the initialization flag. -/
theorem SetShiftCondition_outputInited (now : Int) (st : ShiftType)
    (times size : Int) (l : Logger) :
    (SetShiftCondition now st times size l).outputInited = l.outputInited := by
  cases st <;>
    simp only [SetShiftCondition, SetSizeLimit, setDaysInterval,
      setHourInterval, setSencodInterval] <;>
    (try split_ifs) <;> simp_all

/-- `SetShiftCondition` resets the cumulative size to zero. -/
theorem SetShiftCondition_cumSize (now : Int) (st : ShiftType)
    (times size : Int) (l : Logger) :
    (SetShiftCondition now st times size l).cumSize = 0 := by
  cases st <;>
    simp only [SetShiftCondition, SetSizeLimit, setDaysInterval,
      setHourInterval, setSencodInterval] <;>
    (try split_ifs) <;> simp_all

/-- `getFilePath` never touches slot 0. -/
theorem getFilePath_file0 (ts : String) (l : Logger) :
    (getFilePath ts l).2.file0 = l.file0 := by
  cases h : l.shiftType <;>
    simp only [getFilePath, h] <;> (try split_ifs) <;> simp_all

/-- `getFilePath` never touches slot 1. -/
theorem getFilePath_file1 (ts : String) (l : Logger) :
    (getFilePath ts l).2.file1 = l.file1 := by
  cases h : l.shiftType <;>
    simp only [getFilePath, h] <;> (try split_ifs) <;> simp_all

/-- `getFilePath` never touches the active index. -/
theorem getFilePath_activeIdx (ts : String) (l : Logger) :
    (getFilePath ts l).2.activeIdx = l.activeIdx := by
  cases h : l.shiftType <;>
    simp only [getFilePath, h] <;> (try split_ifs) <;> simp_all

/-- `getFilePath` never touches the initialization flag. -/
theorem getFilePath_outputInited (ts : String) (l : Logger) :
    (getFilePath ts l).2.outputInited = l.outputInited := by
  cases h : l.shiftType <;>
    simp only [getFilePath, h] <;> (try split_ifs) <;> simp_all

/-- `getFilePath` never touches the cumulative size. -/
theorem getFilePath_cumSize (ts : String) (l : Logger) :
    (getFilePath ts l).2.cumSize = l.cumSize := by
  cases h : l.shiftType <;>
    simp only [getFilePath, h] <;> (try split_ifs) <;> simp_all

/-- `getFilePath` never touches the trigger kind. -/
theorem getFilePath_shiftType (ts : String) (l : Logger) :
    (getFilePath ts l).2.shiftType = l.shiftType := by
  cases h : l.shiftType <;>
    simp only [getFilePath, h] <;> (try split_ifs) <;> simp_all

/-- `getFilePath` never touches the size limit. -/
theorem getFilePath_sizeLimit (ts : String) (l : Logger) :
    (getFilePath ts l).2.sizeLimit = l.sizeLimit := by
  cases h : l.shiftType <;>
    simp only [getFilePath, h] <;> (try split_ifs) <;> simp_all

/-- C3: with both writer slots occupied, a swap attempt performs no swap,
but the error it returns is `errors.Wrap(err, ...)` with `err` still nil,
which is a nil error: the caller observes success and keeps writing.  This
contradicts the claimed non-nil InvariantViolation and is a slip in the
code (it builds an error message yet wraps a nil error), so the claim is
recorded as a code bug and this theorem evaluates the code at the failing
state. -/
theorem C3_both_slots_swap_returns_nil_error :
    whetherNeedUpdateOutputs 5 bothBusy = 1 ∧
    (updateOutput 5 "2024-05-06-07-08" none 1 bothBusy).2 = none ∧
    (updateOutput 5 "2024-05-06-07-08" none 1 bothBusy).1.file0 = bothBusy.file0 ∧
    (updateOutput 5 "2024-05-06-07-08" none 1 bothBusy).1.file1 = bothBusy.file1 ∧
    (updateOutput 5 "2024-05-06-07-08" none 1 bothBusy).1.activeIdx = bothBusy.activeIdx := by
  decide

/-- C4 counterexample: configuring a day trigger with interval `0 ≤ 0`
does not disable the time trigger — the very next decision on a fresh
logger reports a time-triggered rotation (status 2). -/
theorem C4_counterexample :
    whetherNeedUpdateOutputs 1
      (SetShiftCondition 0 ShiftType.ShiftDay 0 0 sampleLogger) = 2 := by
  decide

/-- C4 (amended): an interval magnitude `≤ 0` stores the sentinel `-1` and
leaves the rotation deadline unchanged; the decision function never
consults the sentinel, so it still reports a time-triggered rotation
whenever the current time is after the stale deadline. -/
theorem C4_sentinel_leaves_time_trigger_armed (l : Logger)
    (now now0 times size : Int) (st : ShiftType)
    (htimes : times ≤ 0)
    (hst : st = ShiftType.ShiftSecond ∨ st = ShiftType.ShiftHour ∨
      st = ShiftType.ShiftDay ∨ st = ShiftType.ShiftSecondAndSize ∨
      st = ShiftType.ShiftHourAndSize ∨ st = ShiftType.ShiftDayAndSize) :
    (SetShiftCondition now0 st times size l).timeInterval = -1 ∧
    (SetShiftCondition now0 st times size l).date = l.date ∧
    (l.date < now →
      whetherNeedUpdateOutputs now (SetShiftCondition now0 st times size l) = 2) := by
  rcases hst with h | h | h | h | h | h <;> subst h <;>
    simp [SetShiftCondition, setSencodInterval, setHourInterval,
      setDaysInterval, SetSizeLimit, whetherNeedUpdateOutputs, htimes] <;>
    (intros; omega)

/-- C4 witness: the amended statement at a concrete fresh logger, a day
trigger and interval 0. -/
theorem C4_witness :
    (SetShiftCondition 0 ShiftType.ShiftDay 0 0 sampleLogger).timeInterval = -1 ∧
    (SetShiftCondition 0 ShiftType.ShiftDay 0 0 sampleLogger).date = sampleLogger.date ∧
    (sampleLogger.date < 1 →
      whetherNeedUpdateOutputs 1
        (SetShiftCondition 0 ShiftType.ShiftDay 0 0 sampleLogger) = 2) :=
  C4_sentinel_leaves_time_trigger_armed sampleLogger 1 0 0 0 ShiftType.ShiftDay
    (by decide) (Or.inr (Or.inr (Or.inl rfl)))

/-- C5 counterexample: configuring a pure size trigger with size limit
`0 ≤ 0` does not disable the size trigger — the very next decision on a
fresh logger (cumulative size 0) reports a size-triggered rotation. -/
theorem C5_counterexample :
    whetherNeedUpdateOutputs 0
      (SetShiftCondition 0 ShiftType.ShiftSize 0 0 sampleLogger) = 1 := by
  decide

/-- C5 (amended): a size limit `≤ 0` arms rather than disables the size
trigger: the cumulative counter is never below zero, so a pure size
trigger fires on every decision, and a combined trigger fires size-wise
whenever the time condition has not fired. -/
theorem C5_nonpositive_limit_always_fires (l : Logger) (now : Int)
    (hlim : l.sizeLimit ≤ 0) (hcum : 0 ≤ l.cumSize) :
    (l.shiftType = ShiftType.ShiftSize → whetherNeedUpdateOutputs now l = 1) ∧
    ((l.shiftType = ShiftType.ShiftSecondAndSize ∨
      l.shiftType = ShiftType.ShiftHourAndSize ∨
      l.shiftType = ShiftType.ShiftDayAndSize) → ¬ l.date < now →
      whetherNeedUpdateOutputs now l = 1) := by
  have hle : l.sizeLimit ≤ l.cumSize := le_trans hlim hcum
  constructor
  · intro h
    simp [whetherNeedUpdateOutputs, h, hle]
  · intro h hnow
    rcases h with h | h | h <;> simp [whetherNeedUpdateOutputs, h, hle, hnow]

/-- C5 witness: the amended statement at a fresh logger configured with a
pure size trigger and limit 0. -/
theorem C5_witness :
    ((SetShiftCondition 0 ShiftType.ShiftSize 0 0 sampleLogger).shiftType =
        ShiftType.ShiftSize →
      whetherNeedUpdateOutputs 0
        (SetShiftCondition 0 ShiftType.ShiftSize 0 0 sampleLogger) = 1) ∧
    (((SetShiftCondition 0 ShiftType.ShiftSize 0 0 sampleLogger).shiftType =
        ShiftType.ShiftSecondAndSize ∨
      (SetShiftCondition 0 ShiftType.ShiftSize 0 0 sampleLogger).shiftType =
        ShiftType.ShiftHourAndSize ∨
      (SetShiftCondition 0 ShiftType.ShiftSize 0 0 sampleLogger).shiftType =
        ShiftType.ShiftDayAndSize) →
      ¬ (SetShiftCondition 0 ShiftType.ShiftSize 0 0 sampleLogger).date < 0 →
      whetherNeedUpdateOutputs 0
        (SetShiftCondition 0 ShiftType.ShiftSize 0 0 sampleLogger) = 1) :=
  C5_nonpositive_limit_always_fires
    (SetShiftCondition 0 ShiftType.ShiftSize 0 0 sampleLogger) 0
    (by decide) (by decide)

/-- C6: the hour/day interval setters invert the clamping documented on
the `timeInterval` field (cap at 2540400 hours or 105850 days): a value at
or below the maximum is replaced by the maximum, and a value above the
maximum is stored unchanged.  The claim matches the comment and the spec;
the code contradicts both, so this is recorded as a code bug and this
theorem evaluates the code at the failing inputs. -/
theorem C6_interval_clamp_inverted :
    (setHourInterval 0 1 sampleLogger).timeInterval = 2540400 ∧
    (setHourInterval 0 2540401 sampleLogger).timeInterval = 2540401 ∧
    (setDaysInterval 0 1 sampleLogger).timeInterval = 105850 ∧
    (setDaysInterval 0 105851 sampleLogger).timeInterval = 105851 := by
  decide

/-- C9 counterexample: on an emit that rotates, the trace of the file
branch mutates rotation-deciding state (the `updateOutput` step) while the
exclusive lock is not held. -/
theorem C9_counterexample :
    mutationsUnderLock (logoutFileTrace true true) 0 = false := by
  decide

/-- C9 (amended): only the record append and the cumulative-size increment
run under the exclusive lock; the rotation check and the rotation-state
mutations of `updateOutput` (and first-time initialization) run before the
lock is acquired. -/
theorem C9_only_write_under_lock (inited needRotate : Bool) :
    stepsUnderLock (logoutFileTrace inited needRotate) 0 =
      [EmitAction.recordWrite, EmitAction.cumSizeAdd] ∧
    stepsOutsideLock (logoutFileTrace inited needRotate) 0 =
      (if inited then
        (if needRotate then [EmitAction.rotationCheck, EmitAction.rotationMutate]
         else [EmitAction.rotationCheck])
      else [EmitAction.initMutate]) := by
  cases inited <;> cases needRotate <;> decide

/-- An emit that is not file-routed (the level's mask lacks the `TOFILE`
bit) leaves the logger completely unchanged and reports no error. -/
theorem Logout_not_file_routed (e : EmitInput) (l : Logger)
    (hmask : l.outputs e.level &&& TOFILE ≠ TOFILE) :
    Logout e.names e.statSize e.openErr e.writeErr e.now e.ts e.recLen
      e.level l = (l, none) := by
  simp [Logout, hmask]

/-- C7: a logger none of whose emits are file-routed stays, after every
prefix of the emit sequence, in a state with no file opened: the
initialization flag stays false and both writer slots stay empty.  File
creation happens only inside the `TOFILE` branch of `Logout`. -/
theorem C7_no_file_without_file_routed_emit (l : Logger)
    (emits : List EmitInput)
    (hmask : ∀ e ∈ emits, l.outputs e.level &&& TOFILE ≠ TOFILE)
    (hstart : l.outputInited = false ∧ l.file0 = none ∧ l.file1 = none) :
    ∀ n, ((emits.take n).foldl emitStep l).outputInited = false ∧
      ((emits.take n).foldl emitStep l).file0 = none ∧
      ((emits.take n).foldl emitStep l).file1 = none := by
  have hfix : ∀ es : List EmitInput,
      (∀ e ∈ es, l.outputs e.level &&& TOFILE ≠ TOFILE) →
      es.foldl emitStep l = l := by
    intro es
    induction es with
    | nil => intro _; rfl
    | cons e rest ih =>
      intro h
      have he : emitStep l e = l := by
        have := Logout_not_file_routed e l (h e (List.mem_cons_self e rest))
        simp [emitStep, this]
      rw [List.foldl_cons, he]
      exact ih (fun x hx => h x (List.mem_cons_of_mem e hx))
  intro n
  rw [hfix (emits.take n) (fun x hx => hmask x (List.take_subset n emits hx))]
  exact hstart

/-- C7 witness: a fresh logger (whose default masks route no level to a
file) processing two emits opens nothing. -/
theorem C7_witness :
    ((([⟨[], fun _ => none, none, none, 5, "TS", 40, LogLevel.ErrorLevel⟩,
        ⟨[], fun _ => none, none, none, 6, "TS", 17, LogLevel.DebugLevel⟩] :
        List EmitInput).take 2).foldl emitStep sampleLogger).outputInited = false ∧
    ((([⟨[], fun _ => none, none, none, 5, "TS", 40, LogLevel.ErrorLevel⟩,
        ⟨[], fun _ => none, none, none, 6, "TS", 17, LogLevel.DebugLevel⟩] :
        List EmitInput).take 2).foldl emitStep sampleLogger).file0 = none ∧
    ((([⟨[], fun _ => none, none, none, 5, "TS", 40, LogLevel.ErrorLevel⟩,
        ⟨[], fun _ => none, none, none, 6, "TS", 17, LogLevel.DebugLevel⟩] :
        List EmitInput).take 2).foldl emitStep sampleLogger).file1 = none :=
  C7_no_file_without_file_routed_emit sampleLogger
    [⟨[], fun _ => none, none, none, 5, "TS", 40, LogLevel.ErrorLevel⟩,
      ⟨[], fun _ => none, none, none, 6, "TS", 17, LogLevel.DebugLevel⟩]
    (by
      intro e he
      rcases List.mem_cons.mp he with h | h
      · subst h; decide
      · rcases List.mem_cons.mp h with h2 | h2
        · subst h2; decide
        · exact absurd h2 (List.not_mem_nil e))
    (by exact ⟨rfl, rfl, rfl⟩) 2

/-- C8: every generated file name follows
`{loggerName}-{periodTimestamp}[-{n}].log`, and the period timestamp is
the current time truncated to the period start: day kinds zero the hour
and minute (it varies only with the date), hour kinds zero the minute, and
second or size-only kinds keep minute precision. -/
theorem C8_file_name_pattern (st : ShiftType) (c : Civil) (l : Logger) :
    ((st = ShiftType.ShiftDay ∨ st = ShiftType.ShiftDayAndSize) →
      getFileTime st c =
        formatFileNameTime { c with hour := 0, minute := 0 }) ∧
    ((st = ShiftType.ShiftHour ∨ st = ShiftType.ShiftHourAndSize) →
      getFileTime st c = formatFileNameTime { c with minute := 0 }) ∧
    ((st = ShiftType.ShiftSecond ∨ st = ShiftType.ShiftSecondAndSize ∨
      st = ShiftType.ShiftSize ∨ st = ShiftType.ShiftNone) →
      getFileTime st c = formatFileNameTime c) ∧
    ((getFilePath (getFileTime l.shiftType c) l).1 =
      pathJoin l.folder
        (l.loggerName ++ "-" ++ getFileTime l.shiftType c ++ ".log") ∨
    (getFilePath (getFileTime l.shiftType c) l).1 =
      pathJoin l.folder
        (l.loggerName ++ "-" ++ getFileTime l.shiftType c ++ "-" ++
          toString l.nShift ++ ".log")) := by
  refine ⟨?_, ?_, ?_, ?_⟩
  · rintro (h | h) <;> subst h <;> rfl
  · rintro (h | h) <;> subst h <;> rfl
  · rintro (h | h | h | h) <;> subst h <;> rfl
  · cases h : l.shiftType <;> simp only [getFilePath, h] <;>
      (try split_ifs) <;> simp

/-- C8 witness: the granularity and pattern facts at a concrete civil time
2024-05-06 07:08 under a day trigger. -/
theorem C8_witness :
    getFileTime ShiftType.ShiftDay ⟨2024, 5, 6, 7, 8⟩ =
      formatFileNameTime ⟨2024, 5, 6, 0, 0⟩ :=
  (C8_file_name_pattern ShiftType.ShiftDay ⟨2024, 5, 6, 7, 8⟩ sampleLogger).1
    (Or.inl rfl)

/-- C10: setting the timezone is non-uniform: any offset other than `-4`
(after the option clamps into `[-12, 14]`) installs the fixed zone of
`int(u*60*60)` seconds — exactly `u*3600` whenever that product is a whole
number of seconds — while `-4` loads the named, DST-observing IANA zone
`America/Nipigon`; offsets outside the range are clamped first. -/
theorem C10_utc_nipigon_special_case (l : Logger) (u : Rat) (n : Int) :
    (u ≠ -4 → u * 60 * 60 = (n : Rat) →
      (setUtc u l).loc = GoLocation.fixedZone n) ∧
    (setUtc (-4) l).loc = GoLocation.iana "America/Nipigon" ∧
    (u < -12 → utcOptionSet u l = setUtc (-12) l) ∧
    (14 < u → utcOptionSet u l = setUtc 14 l) := by
  refine ⟨?_, ?_, ?_, ?_⟩
  · intro hne hprod
    simp only [setUtc, if_neg hne, hprod, ratTrunc]
    norm_num
  · simp [setUtc]
  · intro h
    simp only [utcOptionSet, if_pos h]
  · intro h
    have h1 : ¬ u < -12 := by linarith
    have h2 : u > 14 := h
    simp only [utcOptionSet, if_neg h1, if_pos h2]

/-- C10 witness: offset 1 installs the fixed zone of 3600 seconds. -/
theorem C10_witness :
    (setUtc 1 sampleLogger).loc = GoLocation.fixedZone 3600 :=
  (C10_utc_nipigon_special_case sampleLogger 1 3600).1 (by norm_num)
    (by norm_num)

/-- Under a pure size trigger the rotation decision is exactly the
comparison of the accumulated bytes against the limit. -/
theorem whetherNeedUpdateOutputs_size (now : Int) (l : Logger)
    (hst : l.shiftType = ShiftType.ShiftSize) :
    whetherNeedUpdateOutputs now l =
      if l.sizeLimit ≤ l.cumSize then 1 else 0 := by
  simp [whetherNeedUpdateOutputs, hst]

/-- A file-routed emit (level passes the threshold and the mask has the
`TOFILE` bit) runs the file branch. -/
theorem Logout_file_routed (names : List String)
    (statSize : String → Option Int) (openErr writeErr : Option String)
    (now : Int) (ts : String) (recLen : Int) (level : LogLevel) (l : Logger)
    (hlvl : l.level.toNat ≤ level.toNat)
    (hmask : l.outputs level &&& TOFILE = TOFILE) :
    Logout names statSize openErr writeErr now ts recLen level l =
      logoutFile names statSize openErr writeErr now ts recLen l := by
  simp [Logout, hmask, Nat.not_lt.mpr hlvl]

/-- With the output initialized and no rotation due, an emit appends the
record and adds its length to the cumulative size, touching nothing else. -/
theorem logoutFile_no_rotation (names : List String)
    (statSize : String → Option Int) (openErr : Option String) (now : Int)
    (ts : String) (recLen : Int) (l : Logger)
    (hinit : l.outputInited = true)
    (hstatus : whetherNeedUpdateOutputs now l = 0) :
    logoutFile names statSize openErr none now ts recLen l =
      ({ l with cumSize := l.cumSize + recLen }, none) := by
  simp [logoutFile, hinit, hstatus]

/-- With the output initialized, a rotation due and a successful swap, an
emit rotates and then appends the record on the fresh counter. -/
theorem logoutFile_rotation (names : List String)
    (statSize : String → Option Int) (openErr : Option String) (now : Int)
    (ts : String) (recLen : Int) (l : Logger)
    (hinit : l.outputInited = true)
    (hstatus : whetherNeedUpdateOutputs now l ≠ 0)
    (hok : (updateOutput now ts openErr (whetherNeedUpdateOutputs now l) l).2 =
      none) :
    logoutFile names statSize openErr none now ts recLen l =
      ({ (updateOutput now ts openErr (whetherNeedUpdateOutputs now l) l).1 with
          cumSize :=
            (updateOutput now ts openErr
              (whetherNeedUpdateOutputs now l) l).1.cumSize + recLen },
        none) := by
  simp [logoutFile, hinit, hstatus, hok, errorsWrap]

/-- A successful swap out of a steady state with slot 0 active installs
the new file in slot 1, makes it active, closes slot 0 and resets the
cumulative size; the trigger configuration survives when the rotation was
size-triggered (`status ≠ 2`). -/
theorem updateOutput_success_to1 (now : Int) (ts : String) (status : Nat)
    (l : Logger) (p : String)
    (hstat : status ≠ 2) (h0 : l.file0 = some p) (h1 : l.file1 = none) :
    (updateOutput now ts none status l).2 = none ∧
    (updateOutput now ts none status l).1.file0 = none ∧
    ((updateOutput now ts none status l).1.file1).isSome = true ∧
    (updateOutput now ts none status l).1.activeIdx = 1 ∧
    (updateOutput now ts none status l).1.cumSize = 0 ∧
    (updateOutput now ts none status l).1.outputInited = l.outputInited ∧
    (updateOutput now ts none status l).1.shiftType = l.shiftType ∧
    (updateOutput now ts none status l).1.sizeLimit = l.sizeLimit := by
  simp only [updateOutput, if_neg hstat]
  simp only [h0, h1, updateOutput.updateOutputAt, setSlot]
  simp [getFilePath_file0, getFilePath_file1, getFilePath_outputInited,
    getFilePath_cumSize, getFilePath_shiftType, getFilePath_sizeLimit, h0]

/-- A successful swap out of a steady state with slot 1 active installs
the new file in slot 0, makes it active, closes slot 1 and resets the
cumulative size. -/
theorem updateOutput_success_to0 (now : Int) (ts : String) (status : Nat)
    (l : Logger)
    (hstat : status ≠ 2) (h0 : l.file0 = none) :
    (updateOutput now ts none status l).2 = none ∧
    (updateOutput now ts none status l).1.file1 = none ∧
    ((updateOutput now ts none status l).1.file0).isSome = true ∧
    (updateOutput now ts none status l).1.activeIdx = 0 ∧
    (updateOutput now ts none status l).1.cumSize = 0 ∧
    (updateOutput now ts none status l).1.outputInited = l.outputInited ∧
    (updateOutput now ts none status l).1.shiftType = l.shiftType ∧
    (updateOutput now ts none status l).1.sizeLimit = l.sizeLimit := by
  simp only [updateOutput, if_neg hstat]
  simp only [h0, updateOutput.updateOutputAt, setSlot]
  simp [getFilePath_file0, getFilePath_file1, getFilePath_outputInited,
    getFilePath_cumSize, getFilePath_shiftType, getFilePath_sizeLimit]

/-- C1: under a size trigger, the rotation decision of an emit uses only
the bytes accumulated by prior writes and runs before the pending record
is appended.  From a steady state below the limit, the record that pushes
the cumulative size to or over the limit is still written to the old file
(slots and active index unchanged); the very next file-routed emit
performs exactly one rotation — the active index flips, the old slot is
closed and a fresh file occupies the other slot — after which the
cumulative counter equals the size of that next record alone. -/
theorem C1_size_rotation_after_crossing
    (l : Logger) (lv : LogLevel)
    (ns1 ns2 : List String) (ss1 ss2 : String → Option Int)
    (oe1 : Option String) (now1 now2 : Int) (ts1 ts2 : String) (r1 r2 : Int)
    (hsteady : steadySlots l)
    (hst : l.shiftType = ShiftType.ShiftSize)
    (hinit : l.outputInited = true)
    (hlvl : l.level.toNat ≤ lv.toNat)
    (hmask : l.outputs lv &&& TOFILE = TOFILE)
    (hunder : l.cumSize < l.sizeLimit)
    (hover : l.sizeLimit ≤ l.cumSize + r1) :
    (Logout ns1 ss1 oe1 none now1 ts1 r1 lv l).2 = none ∧
    (Logout ns1 ss1 oe1 none now1 ts1 r1 lv l).1.file0 = l.file0 ∧
    (Logout ns1 ss1 oe1 none now1 ts1 r1 lv l).1.file1 = l.file1 ∧
    (Logout ns1 ss1 oe1 none now1 ts1 r1 lv l).1.activeIdx = l.activeIdx ∧
    (Logout ns1 ss1 oe1 none now1 ts1 r1 lv l).1.cumSize = l.cumSize + r1 ∧
    (Logout ns2 ss2 none none now2 ts2 r2 lv
      (Logout ns1 ss1 oe1 none now1 ts1 r1 lv l).1).2 = none ∧
    (Logout ns2 ss2 none none now2 ts2 r2 lv
      (Logout ns1 ss1 oe1 none now1 ts1 r1 lv l).1).1.cumSize = r2 ∧
    (Logout ns2 ss2 none none now2 ts2 r2 lv
      (Logout ns1 ss1 oe1 none now1 ts1 r1 lv l).1).1.activeIdx =
      1 - l.activeIdx ∧
    getSlot l.activeIdx
      (Logout ns2 ss2 none none now2 ts2 r2 lv
        (Logout ns1 ss1 oe1 none now1 ts1 r1 lv l).1).1 = none ∧
    (getSlot (1 - l.activeIdx)
      (Logout ns2 ss2 none none now2 ts2 r2 lv
        (Logout ns1 ss1 oe1 none now1 ts1 r1 lv l).1).1).isSome = true := by
  have hstat1 : whetherNeedUpdateOutputs now1 l = 0 := by
    rw [whetherNeedUpdateOutputs_size now1 l hst]
    exact if_neg (not_le.mpr hunder)
  have h1eq : Logout ns1 ss1 oe1 none now1 ts1 r1 lv l =
      ({ l with cumSize := l.cumSize + r1 }, none) := by
    rw [Logout_file_routed ns1 ss1 oe1 none now1 ts1 r1 lv l hlvl hmask,
      logoutFile_no_rotation ns1 ss1 oe1 now1 ts1 r1 l hinit hstat1]
  have hstat2 :
      whetherNeedUpdateOutputs now2 { l with cumSize := l.cumSize + r1 } = 1 := by
    rw [whetherNeedUpdateOutputs_size now2 { l with cumSize := l.cumSize + r1 } hst]
    exact if_pos hover
  have hrot := logoutFile_rotation ns2 ss2 none now2 ts2 r2
    { l with cumSize := l.cumSize + r1 } hinit
  rw [hstat2] at hrot
  rcases hsteady with ⟨hact, hsome, hnone⟩ | ⟨hact, hsome, hnone⟩
  · obtain ⟨p, hp⟩ := Option.isSome_iff_exists.mp hsome
    obtain ⟨u2, uf0, uf1, uact, ucum, _, _, _⟩ :=
      updateOutput_success_to1 now2 ts2 1 { l with cumSize := l.cumSize + r1 } p
        (by decide) hp hnone
    have h2eq := hrot (by decide) u2
    have h2eq' :
        Logout ns2 ss2 none none now2 ts2 r2 lv
          { l with cumSize := l.cumSize + r1 } =
        ({ (updateOutput now2 ts2 none 1 { l with cumSize := l.cumSize + r1 }).1
            with cumSize :=
              (updateOutput now2 ts2 none 1
                { l with cumSize := l.cumSize + r1 }).1.cumSize + r2 }, none) := by
      rw [Logout_file_routed ns2 ss2 none none now2 ts2 r2 lv
        { l with cumSize := l.cumSize + r1 } hlvl hmask]
      exact h2eq
    simp only [h1eq, h2eq']
    refine ⟨trivial, trivial, trivial, trivial, trivial, trivial, ?_, ?_, ?_, ?_⟩
    · rw [ucum]; ring
    · rw [uact, hact]
    · simpa [getSlot, hact] using uf0
    · simpa [getSlot, hact] using uf1
  · obtain ⟨u2, uf1, uf0, uact, ucum, _, _, _⟩ :=
      updateOutput_success_to0 now2 ts2 1 { l with cumSize := l.cumSize + r1 }
        (by decide) hnone
    have h2eq := hrot (by decide) u2
    have h2eq' :
        Logout ns2 ss2 none none now2 ts2 r2 lv
          { l with cumSize := l.cumSize + r1 } =
        ({ (updateOutput now2 ts2 none 1 { l with cumSize := l.cumSize + r1 }).1
            with cumSize :=
              (updateOutput now2 ts2 none 1
                { l with cumSize := l.cumSize + r1 }).1.cumSize + r2 }, none) := by
      rw [Logout_file_routed ns2 ss2 none none now2 ts2 r2 lv
        { l with cumSize := l.cumSize + r1 } hlvl hmask]
      exact h2eq
    simp only [h1eq, h2eq']
    refine ⟨trivial, trivial, trivial, trivial, trivial, trivial, ?_, ?_, ?_, ?_⟩
    · rw [ucum]; ring
    · rw [uact, hact]
    · simpa [getSlot, hact] using uf1
    · simpa [getSlot, hact] using uf0

/-- C1 witness: the crossing scenario at a concrete steady logger with
limit 100, 80 bytes accumulated, then records of 40 and 30 bytes. -/
theorem C1_witness :
    (Logout [] (fun _ => none) none none 5 "2024-05-06-07-08" 40
      LogLevel.InfoLevel sizeSteady).1.cumSize = sizeSteady.cumSize + 40 ∧
    (Logout [] (fun _ => none) none none 6 "2024-05-06-07-08" 30
      LogLevel.InfoLevel
      (Logout [] (fun _ => none) none none 5 "2024-05-06-07-08" 40
        LogLevel.InfoLevel sizeSteady).1).1.cumSize = 30 ∧
    (Logout [] (fun _ => none) none none 6 "2024-05-06-07-08" 30
      LogLevel.InfoLevel
      (Logout [] (fun _ => none) none none 5 "2024-05-06-07-08" 40
        LogLevel.InfoLevel sizeSteady).1).1.activeIdx =
      1 - sizeSteady.activeIdx := by
  obtain ⟨-, -, -, -, h5, -, h7, h8, -, -⟩ :=
    C1_size_rotation_after_crossing sizeSteady LogLevel.InfoLevel
      [] [] (fun _ => none) (fun _ => none) none 5 6
      "2024-05-06-07-08" "2024-05-06-07-08" 40 30
      (Or.inl ⟨rfl, rfl, rfl⟩) rfl rfl (by decide) (by decide)
      (by decide) (by decide)
  exact ⟨h5, h7, h8⟩

/-- `SetShiftCondition` stores exactly the requested trigger kind. -/
theorem SetShiftCondition_shiftType (now : Int) (st : ShiftType)
    (times size : Int) (l : Logger) :
    (SetShiftCondition now st times size l).shiftType = st := by
  cases st <;>
    simp only [SetShiftCondition, SetSizeLimit, setDaysInterval,
      setHourInterval, setSencodInterval] <;>
    (try split_ifs) <;> simp_all

/-- The size limit after `SetShiftCondition` is either the requested one
or the receiver's old one (size-involving kinds store the request, the
others keep the old value). -/
theorem SetShiftCondition_sizeLimit (now : Int) (st : ShiftType)
    (times size : Int) (l : Logger) :
    (SetShiftCondition now st times size l).sizeLimit = size ∨
    (SetShiftCondition now st times size l).sizeLimit = l.sizeLimit := by
  cases st <;>
    simp only [SetShiftCondition, SetSizeLimit, setDaysInterval,
      setHourInterval, setSencodInterval] <;>
    (try split_ifs) <;> simp_all

/-- `updateOutput` is its pre-swap state mutation followed by the
slot-scan-and-swap tail. -/
theorem updateOutput_eq_tail (now : Int) (ts : String)
    (openErr : Option String) (status : Nat) (l : Logger) :
    updateOutput now ts openErr status l =
      updateOutputTail ts openErr
        (if status = 2 then
          SetShiftCondition now l.shiftType l.timeInterval l.sizeLimit
            { l with cumSize := 0, nShift := 0 }
        else { l with cumSize := 0 }) := by
  by_cases hs : status = 2 <;>
    simp [updateOutput, updateOutputTail, hs]

/-- When the open fails, the swap tail returns a non-nil error and leaves
every field of the state unchanged except `nShift` (the path generation
may advance it): in particular both slots, the active index and the
cumulative size survive as they were. -/
theorem updateOutputTail_failure (ts e : String) (l2 : Logger)
    (hfree : l2.file0 = none ∨ l2.file1 = none) :
    ((updateOutputTail ts (some e) l2).2).isSome = true ∧
    (updateOutputTail ts (some e) l2).1.file0 = l2.file0 ∧
    (updateOutputTail ts (some e) l2).1.file1 = l2.file1 ∧
    (updateOutputTail ts (some e) l2).1.activeIdx = l2.activeIdx ∧
    (updateOutputTail ts (some e) l2).1.cumSize = l2.cumSize ∧
    (updateOutputTail ts (some e) l2).1.outputInited = l2.outputInited ∧
    (updateOutputTail ts (some e) l2).1.shiftType = l2.shiftType ∧
    (updateOutputTail ts (some e) l2).1.sizeLimit = l2.sizeLimit := by
  by_cases h0 : l2.file0 = none
  · simp [updateOutputTail, h0, updateOutput.updateOutputAt, setSlot,
      errorsWrap, getFilePath_file0, getFilePath_file1, getFilePath_activeIdx,
      getFilePath_outputInited, getFilePath_cumSize, getFilePath_shiftType,
      getFilePath_sizeLimit]
  · have h1 : l2.file1 = none := hfree.resolve_left h0
    simp [updateOutputTail, h0, h1, updateOutput.updateOutputAt, setSlot,
      errorsWrap, getFilePath_file0, getFilePath_file1, getFilePath_activeIdx,
      getFilePath_outputInited, getFilePath_cumSize, getFilePath_shiftType,
      getFilePath_sizeLimit]

/-- C2 counterexample: a failing swap is not state-free.  At a steady
size-triggered logger with 120 accumulated bytes, a rotation attempt whose
open fails returns an error, yet the cumulative-bytes counter has been
reset (0 instead of the previous 120), contradicting the claim that no
logger state is mutated further. -/
theorem C2_counterexample :
    ((updateOutput 6 "2024-05-06-07-08" (some "permission denied") 1
      { sizeSteady with cumSize := 120 }).2).isSome = true ∧
    ¬ (updateOutput 6 "2024-05-06-07-08" (some "permission denied") 1
      { sizeSteady with cumSize := 120 }).1.cumSize =
        ({ sizeSteady with cumSize := 120 } : Logger).cumSize := by
  decide

/-- C2 (amended): when the open of the new file fails, the error is
returned and the active slot is untouched — the active index and both
slot contents are exactly as before, so subsequent writes keep going to
the pre-rotation file — but the attempt is not state-free: the
cumulative-bytes counter has already been reset to zero (and a
time-triggered attempt has already re-run the deadline computation)
before the failure is detected. -/
theorem C2_swap_failure_keeps_active_slot (now : Int) (ts e : String)
    (status : Nat) (l : Logger) (ns : List String)
    (ss : String → Option Int) (now2 : Int) (ts2 : String) (r2 : Int)
    (hsteady : steadySlots l) :
    ((updateOutput now ts (some e) status l).2).isSome = true ∧
    (updateOutput now ts (some e) status l).1.file0 = l.file0 ∧
    (updateOutput now ts (some e) status l).1.file1 = l.file1 ∧
    (updateOutput now ts (some e) status l).1.activeIdx = l.activeIdx ∧
    (updateOutput now ts (some e) status l).1.cumSize = 0 ∧
    (l.shiftType = ShiftType.ShiftSize → 0 < l.sizeLimit →
      l.outputInited = true →
      (logoutFile ns ss none none now2 ts2 r2
        (updateOutput now ts (some e) status l).1).2 = none ∧
      (logoutFile ns ss none none now2 ts2 r2
        (updateOutput now ts (some e) status l).1).1.activeIdx = l.activeIdx ∧
      (logoutFile ns ss none none now2 ts2 r2
        (updateOutput now ts (some e) status l).1).1.file0 = l.file0 ∧
      (logoutFile ns ss none none now2 ts2 r2
        (updateOutput now ts (some e) status l).1).1.file1 = l.file1 ∧
      (logoutFile ns ss none none now2 ts2 r2
        (updateOutput now ts (some e) status l).1).1.cumSize = r2) := by
  have hfree : l.file0 = none ∨ l.file1 = none := by
    rcases hsteady with ⟨-, -, h⟩ | ⟨-, -, h⟩
    · exact Or.inr h
    · exact Or.inl h
  obtain ⟨hbf0, hbf1, hbact, hbcum, hbini, hbsh, hbsl⟩ :
      (if status = 2 then
        SetShiftCondition now l.shiftType l.timeInterval l.sizeLimit
          { l with cumSize := 0, nShift := 0 }
      else ({ l with cumSize := 0 } : Logger)).file0 = l.file0 ∧
      (if status = 2 then
        SetShiftCondition now l.shiftType l.timeInterval l.sizeLimit
          { l with cumSize := 0, nShift := 0 }
      else ({ l with cumSize := 0 } : Logger)).file1 = l.file1 ∧
      (if status = 2 then
        SetShiftCondition now l.shiftType l.timeInterval l.sizeLimit
          { l with cumSize := 0, nShift := 0 }
      else ({ l with cumSize := 0 } : Logger)).activeIdx = l.activeIdx ∧
      (if status = 2 then
        SetShiftCondition now l.shiftType l.timeInterval l.sizeLimit
          { l with cumSize := 0, nShift := 0 }
      else ({ l with cumSize := 0 } : Logger)).cumSize = 0 ∧
      (if status = 2 then
        SetShiftCondition now l.shiftType l.timeInterval l.sizeLimit
          { l with cumSize := 0, nShift := 0 }
      else ({ l with cumSize := 0 } : Logger)).outputInited = l.outputInited ∧
      (if status = 2 then
        SetShiftCondition now l.shiftType l.timeInterval l.sizeLimit
          { l with cumSize := 0, nShift := 0 }
      else ({ l with cumSize := 0 } : Logger)).shiftType = l.shiftType ∧
      (if status = 2 then
        SetShiftCondition now l.shiftType l.timeInterval l.sizeLimit
          { l with cumSize := 0, nShift := 0 }
      else ({ l with cumSize := 0 } : Logger)).sizeLimit = l.sizeLimit := by
    by_cases hs : status = 2
    · simp only [hs, if_pos rfl]
      refine ⟨SetShiftCondition_file0 _ _ _ _ _,
        SetShiftCondition_file1 _ _ _ _ _,
        SetShiftCondition_activeIdx _ _ _ _ _,
        SetShiftCondition_cumSize _ _ _ _ _,
        SetShiftCondition_outputInited _ _ _ _ _,
        SetShiftCondition_shiftType _ _ _ _ _, ?_⟩
      rcases SetShiftCondition_sizeLimit now l.shiftType l.timeInterval
        l.sizeLimit { l with cumSize := 0, nShift := 0 } with h | h
      · exact h
      · exact h
    · simp [hs]
  rw [updateOutput_eq_tail] at *
  obtain ⟨ht2, htf0, htf1, htact, htcum, htini, htsh, htsl⟩ :=
    updateOutputTail_failure ts e _ (by rw [hbf0, hbf1]; exact hfree)
  refine ⟨ht2, htf0.trans hbf0, htf1.trans hbf1, htact.trans hbact,
    htcum.trans hbcum, ?_⟩
  intro hsize hpos hinit
  have hsh2 : (updateOutputTail ts (some e)
      (if status = 2 then
        SetShiftCondition now l.shiftType l.timeInterval l.sizeLimit
          { l with cumSize := 0, nShift := 0 }
      else ({ l with cumSize := 0 } : Logger))).1.shiftType =
      ShiftType.ShiftSize := by rw [htsh, hbsh, hsize]
  have hini2 : (updateOutputTail ts (some e)
      (if status = 2 then
        SetShiftCondition now l.shiftType l.timeInterval l.sizeLimit
          { l with cumSize := 0, nShift := 0 }
      else ({ l with cumSize := 0 } : Logger))).1.outputInited = true := by
    rw [htini, hbini, hinit]
  have hstat0 : whetherNeedUpdateOutputs now2
      (updateOutputTail ts (some e)
        (if status = 2 then
          SetShiftCondition now l.shiftType l.timeInterval l.sizeLimit
            { l with cumSize := 0, nShift := 0 }
        else ({ l with cumSize := 0 } : Logger))).1 = 0 := by
    rw [whetherNeedUpdateOutputs_size now2 _ hsh2]
    have hlt : ¬ ((updateOutputTail ts (some e)
        (if status = 2 then
          SetShiftCondition now l.shiftType l.timeInterval l.sizeLimit
            { l with cumSize := 0, nShift := 0 }
        else ({ l with cumSize := 0 } : Logger))).1.sizeLimit ≤
        (updateOutputTail ts (some e)
          (if status = 2 then
            SetShiftCondition now l.shiftType l.timeInterval l.sizeLimit
              { l with cumSize := 0, nShift := 0 }
          else ({ l with cumSize := 0 } : Logger))).1.cumSize) := by
      rw [htcum, hbcum, htsl, hbsl]
      omega
    exact if_neg hlt
  rw [logoutFile_no_rotation ns ss none now2 ts2 r2 _ hini2 hstat0]
  refine ⟨rfl, htact.trans hbact, htf0.trans hbf0, htf1.trans hbf1, ?_⟩
  simp only [htcum, hbcum]
  ring

/-- C2 witness: the amended statement at the concrete steady logger with
120 accumulated bytes and a failing open. -/
theorem C2_witness :
    ((updateOutput 6 "2024-05-06-07-08" (some "permission denied") 1
      { sizeSteady with cumSize := 120 }).2).isSome = true ∧
    (updateOutput 6 "2024-05-06-07-08" (some "permission denied") 1
      { sizeSteady with cumSize := 120 }).1.activeIdx =
      ({ sizeSteady with cumSize := 120 } : Logger).activeIdx ∧
    (updateOutput 6 "2024-05-06-07-08" (some "permission denied") 1
      { sizeSteady with cumSize := 120 }).1.file0 =
      ({ sizeSteady with cumSize := 120 } : Logger).file0 ∧
    (logoutFile [] (fun _ => none) none none 7 "2024-05-06-07-08" 25
      (updateOutput 6 "2024-05-06-07-08" (some "permission denied") 1
        { sizeSteady with cumSize := 120 }).1).1.cumSize = 25 := by
  obtain ⟨h1, h2, h3, h4, h5, h6⟩ :=
    C2_swap_failure_keeps_active_slot 6 "2024-05-06-07-08"
      "permission denied" 1 { sizeSteady with cumSize := 120 }
      [] (fun _ => none) 7 "2024-05-06-07-08" 25
      (Or.inl ⟨rfl, rfl, rfl⟩)
  obtain ⟨-, -, -, -, h7⟩ := h6 rfl (by decide) rfl
  exact ⟨h1, h4, h2, h7⟩

end GlogSpec
